import Mathlib

/-
  Verification development for the FluentDrama-Japanese server.

  Shallow embedding of the usage-metering, voice-selection, dialogue-generation
  and speech-recognition logic of the Express server (server/storage.ts,
  server/routes.ts, server/services/openai.ts, server/services/openai-tts.ts,
  server/services/speech-recognition.ts) and of the dialogue-screen client
  guard in client/src/pages/Auth.tsx.

  Conventions used throughout:
  - Usage counters are stored as decimal strings in the database and read back
    with parseInt(x, 10) after an `x || "0"` default; we model the numeric
    value as `Option Nat` where `none` stands for a missing/null column and
    `Option.getD 0` mirrors the `|| "0"` default.
  - Timestamps are modeled as `Int` milliseconds since the epoch, matching
    Date.getTime(); JavaScript Math.floor on a real quotient of integers is
    Int.fdiv.
  - External collaborators (OpenAI chat, TTS, DALL-E, Whisper, the database)
    are parameters of the embedded functions: a route handler takes the
    oracle answer of the provider it would call, and reports whether the
    provider call was reached.
  - The `updatedAt` bookkeeping column is not modeled; no specified behavior
    reads it.
-/

/- ---------- String helpers ----------
   Executable counterparts of JavaScript String.prototype.toLowerCase and
   String.prototype.trim (for the ASCII / Japanese data appearing here), and
   of String.prototype.includes, defined structurally so that proofs can
   evaluate them. -/

def strToLower (s : String) : String :=
  String.mk (s.data.map Char.toLower)

def strTrim (s : String) : String :=
  String.mk (((s.data.dropWhile Char.isWhitespace).reverse.dropWhile Char.isWhitespace).reverse)

def containsSub (pat : List Char) : List Char → Bool
  | [] => pat.isEmpty
  | c :: t => pat.isPrefixOf (c :: t) || containsSub pat t

def strIncludes (s pat : String) : Bool :=
  containsSub pat.data s.data

/- ---------- Voice selection (server/services/openai-tts.ts) ---------- -/

inductive Voice where
  | alloy | echo | fable | onyx | nova | shimmer
deriving DecidableEq, Repr

/-- The role-to-voice table of getOpenAIVoiceForCharacter: each known role maps
to a voice that still depends on the gender string; unknown roles are absent. -/
def roleVoices (gender role : String) : Option Voice :=
  if role = "Professional Server" then some (if gender = "female" then Voice.nova else Voice.onyx)
  else if role = "Flight Attendant" then some (if gender = "female" then Voice.nova else Voice.onyx)
  else if role = "Friendly Barista" then some (if gender = "female" then Voice.alloy else Voice.fable)
  else if role = "Senior Executive" then some (if gender = "female" then Voice.nova else Voice.onyx)
  else if role = "Concierge" then some (if gender = "female" then Voice.nova else Voice.onyx)
  else if role = "Check-in Staff" then some (if gender = "female" then Voice.nova else Voice.onyx)
  else none

/-- The female branch of the style switch in getOpenAIVoiceForCharacter. -/
def femaleVoiceForStyle (style : String) : Voice :=
  let s := strToLower style
  if s = "professional" ∨ s = "strict" then Voice.nova
  else if s = "cheerful" ∨ s = "friendly" then Voice.shimmer
  else if s = "calm" then Voice.alloy
  else Voice.nova

/-- The male branch of the style switch in getOpenAIVoiceForCharacter. -/
def maleVoiceForStyle (style : String) : Voice :=
  let s := strToLower style
  if s = "professional" ∨ s = "strict" then Voice.onyx
  else if s = "cheerful" ∨ s = "friendly" then Voice.echo
  else if s = "calm" then Voice.fable
  else Voice.onyx

/-- getOpenAIVoiceForCharacter(style, gender, role = ""): the role lookup is
attempted first (an empty role string is falsy in the source and skips the
table), then the gender-and-style tables, then the gender defaults with a
final fallback of nova. -/
def getOpenAIVoiceForCharacter (style gender role : String) : Voice :=
  match (if role = "" then none else roleVoices gender role) with
  | some v => v
  | none =>
    if strToLower gender = "female" then femaleVoiceForStyle style
    else if strToLower gender = "male" then maleVoiceForStyle style
    else Voice.nova

/- ---------- Users and quota checks (server/routes.ts, server/storage.ts) ---------- -/

/-- The columns of the users table that the metering logic reads or writes. -/
structure User where
  email : String
  isAdmin : Bool
  subscriptionTier : Option String
  conversationCount : Option Nat
  imageGenerationCount : Option Nat
  ttsUsageCount : Option Nat
  dailyUsageCount : Option Nat
  monthlyImageCount : Option Nat
  lastUsageReset : Option Int
deriving DecidableEq, Repr

/-- The shape returned by checkUsageLimit and checkImageUsageLimit. -/
structure UsageCheck where
  canUse : Bool
  currentUsage : Nat
  limit : Nat
deriving DecidableEq, Repr

/-- The admin bypass condition of both usage-limit helpers. -/
def isAdminIdentity (u : User) : Bool :=
  u.email = "mainstop3@gmail.com" || u.isAdmin

/-- The per-tier conversation limits table of checkUsageLimit, with the
`limits[tier] || 30` fallback. -/
def conversationLimitForTier (tier : String) : Nat :=
  if tier = "free" then 30
  else if tier = "starter" then 300
  else if tier = "pro" then 1000
  else if tier = "premium" then 5000
  else 30

/-- The per-tier image limits table of checkImageUsageLimit, with the
`imageLimits[tier] || 1` fallback. -/
def imageLimitForTier (tier : String) : Nat :=
  if tier = "free" then 1
  else if tier = "starter" then 15
  else if tier = "pro" then 25
  else if tier = "premium" then 60
  else 1

/-- checkUsageLimit(userId): the argument is the looked-up user record
(none when storage.getUser finds nothing). -/
def checkUsageLimit (userRec : Option User) : UsageCheck :=
  match userRec with
  | none => { canUse := false, currentUsage := 0, limit := 0 }
  | some u =>
    if isAdminIdentity u then { canUse := true, currentUsage := 0, limit := 999999 }
    else
      let tier := u.subscriptionTier.getD "free"
      let lim := conversationLimitForTier tier
      let current := u.conversationCount.getD 0
      { canUse := decide (current < lim), currentUsage := current, limit := lim }

/-- checkImageUsageLimit(userId), same shape over imageGenerationCount. -/
def checkImageUsageLimit (userRec : Option User) : UsageCheck :=
  match userRec with
  | none => { canUse := false, currentUsage := 0, limit := 0 }
  | some u =>
    if isAdminIdentity u then { canUse := true, currentUsage := 0, limit := 999999 }
    else
      let tier := u.subscriptionTier.getD "free"
      let lim := imageLimitForTier tier
      let current := u.imageGenerationCount.getD 0
      { canUse := decide (current < lim), currentUsage := current, limit := lim }

/- ---------- The check-usage / increment-usage routes and storage ops ---------- -/

def msPerDay : Int := 86400000

/-- daysSinceReset as computed in POST /api/check-usage:
Math.floor((now - lastReset) / (1000*60*60*24)), where a missing
lastUsageReset defaults to `new Date()`, i.e. to now. -/
def daysSinceReset (now : Int) (u : User) : Int :=
  Int.fdiv (now - u.lastUsageReset.getD now) msPerDay

/-- The per-tier limits table local to POST /api/check-usage:
(conversations, images) per tier, with `limits[tier] || limits.free`. -/
def routeLimits (tier : Option String) : Nat × Nat :=
  match tier with
  | some "free" => (30, 1)
  | some "starter" => (300, 15)
  | some "pro" => (600, 25)
  | some "premium" => (1200, 60)
  | _ => (30, 1)

/-- The JSON body answered by POST /api/check-usage. -/
structure CheckUsageResp where
  canUse : Bool
  currentUsage : Nat
  limit : Nat
  tier : Option String
  daysUntilReset : Int
deriving DecidableEq, Repr

/-- POST /api/check-usage for a found, authenticated user: reads
dailyUsageCount, applies the 30-day reset (zeroing dailyUsageCount and
stamping lastUsageReset) before comparing against the tier conversation
limit, and returns the response together with the stored user state after
the call. -/
def checkUsageRoute (now : Int) (u : User) : CheckUsageResp × User :=
  let daysSince := daysSinceReset now u
  let current0 := u.dailyUsageCount.getD 0
  let doReset := decide (30 ≤ daysSince)
  let current := if doReset then 0 else current0
  let u2 := if doReset then { u with dailyUsageCount := some 0, lastUsageReset := some now } else u
  let lims := routeLimits u.subscriptionTier
  ({ canUse := decide (current < lims.1), currentUsage := current, limit := lims.1,
     tier := u.subscriptionTier, daysUntilReset := 30 - daysSince }, u2)

/-- POST /api/increment-usage for a found user: newUsage and the stored user
state after the call. -/
def incrementUsageRoute (u : User) : Nat × User :=
  let newUsage := u.dailyUsageCount.getD 0 + 1
  (newUsage, { u with dailyUsageCount := some newUsage })

/-- DatabaseStorage.resetUserUsage: zeroes all five usage columns and stamps
lastUsageReset. -/
def resetUserUsage (now : Int) (u : User) : User :=
  { u with conversationCount := some 0, imageGenerationCount := some 0,
           ttsUsageCount := some 0, dailyUsageCount := some 0,
           monthlyImageCount := some 0, lastUsageReset := some now }

inductive UsageType where
  | conversation | imageGeneration | tts
deriving DecidableEq, Repr

/-- DatabaseStorage.incrementUsage: bumps exactly the counter named by the
metric type. -/
def incrementUsage (u : User) : UsageType → User
  | UsageType.conversation =>
      { u with conversationCount := some (u.conversationCount.getD 0 + 1) }
  | UsageType.imageGeneration =>
      { u with imageGenerationCount := some (u.imageGenerationCount.getD 0 + 1) }
  | UsageType.tts =>
      { u with ttsUsageCount := some (u.ttsUsageCount.getD 0 + 1) }

/- ---------- Metered AI endpoints (server/routes.ts) ----------
   Each handler is modeled by its control flow around the quota gate: the
   provider call is abstracted to a boolean oracle (did the upstream call
   succeed), and the outcome records the HTTP status, the quota fields of a
   429 body, whether the provider was reached, and the stored user state
   after the call. -/

structure MeteredOutcome where
  status : Nat
  currentUsage : Option Nat
  limit : Option Nat
  errType : Option String
  providerCalled : Bool
  finalUser : Option User
deriving DecidableEq, Repr

/-- POST /api/generate-image: image-quota gate, DALL-E call, then
incrementUsage(userId, imageGeneration) on success. -/
def generateImageRoute (userRec : Option User) (providerOk : Bool) : MeteredOutcome :=
  let chk := checkImageUsageLimit userRec
  if chk.canUse = false then
    { status := 429, currentUsage := some chk.currentUsage, limit := some chk.limit,
      errType := some "image_limit_exceeded", providerCalled := false, finalUser := userRec }
  else if providerOk then
    { status := 200, currentUsage := none, limit := none, errType := none,
      providerCalled := true,
      finalUser := userRec.map (fun u => incrementUsage u UsageType.imageGeneration) }
  else
    { status := 500, currentUsage := none, limit := none, errType := none,
      providerCalled := true, finalUser := userRec }

/-- POST /api/generate-dialogue: conversation-quota gate, chat call, then
incrementUsage(userId, conversation) on success. -/
def generateDialogueRoute (userRec : Option User) (providerOk : Bool) : MeteredOutcome :=
  let chk := checkUsageLimit userRec
  if chk.canUse = false then
    { status := 429, currentUsage := some chk.currentUsage, limit := some chk.limit,
      errType := none, providerCalled := false, finalUser := userRec }
  else if providerOk then
    { status := 200, currentUsage := none, limit := none, errType := none,
      providerCalled := true,
      finalUser := userRec.map (fun u => incrementUsage u UsageType.conversation) }
  else
    { status := 500, currentUsage := none, limit := none, errType := none,
      providerCalled := true, finalUser := userRec }

/-- POST /api/tts: conversation-quota gate, TTS call, then
incrementUsage(userId, tts) on success (both language branches do this). -/
def ttsRoute (userRec : Option User) (providerOk : Bool) : MeteredOutcome :=
  let chk := checkUsageLimit userRec
  if chk.canUse = false then
    { status := 429, currentUsage := some chk.currentUsage, limit := some chk.limit,
      errType := none, providerCalled := false, finalUser := userRec }
  else if providerOk then
    { status := 200, currentUsage := none, limit := none, errType := none,
      providerCalled := true,
      finalUser := userRec.map (fun u => incrementUsage u UsageType.tts) }
  else
    { status := 500, currentUsage := none, limit := none, errType := none,
      providerCalled := true, finalUser := userRec }

/-- POST /api/conversation-response: conversation-quota gate, chat call, then
incrementUsage(userId, conversation) on success. -/
def conversationResponseRoute (userRec : Option User) (providerOk : Bool) : MeteredOutcome :=
  let chk := checkUsageLimit userRec
  if chk.canUse = false then
    { status := 429, currentUsage := some chk.currentUsage, limit := some chk.limit,
      errType := none, providerCalled := false, finalUser := userRec }
  else if providerOk then
    { status := 200, currentUsage := none, limit := none, errType := none,
      providerCalled := true,
      finalUser := userRec.map (fun u => incrementUsage u UsageType.conversation) }
  else
    { status := 500, currentUsage := none, limit := none, errType := none,
      providerCalled := true, finalUser := userRec }

/- ---------- Dialogue generation validation (server/services/openai.ts) ---------- -/

/-- The shape of one field of the parsed provider JSON as the validation in
generateDialogue distinguishes it: absent or otherwise falsy, present but not
an array, or an array of the given elements. -/
inductive JField where
  | missing
  | nonArray
  | arr (elems : List String)
deriving DecidableEq, Repr

/-- Whether a field fails the `!x || !Array.isArray(x) || x.length !== 3`
validation of generateDialogue. -/
def badDialogueField : JField → Bool
  | JField.arr xs => decide (xs.length ≠ 3)
  | _ => true

/-- generateDialogue, from the provider answer onward: the argument is the
parsed (lines, focus_phrases) pair of the chat response, or none when the
response carried no content. The prompt-building prefix of the function has
no bearing on the validated result shape. -/
def generateDialogue (content : Option (JField × JField)) :
    Except String (List String × List String) :=
  match content with
  | none => Except.error "No content returned from OpenAI"
  | some (ls, fps) =>
    match ls with
    | JField.arr xs =>
      if xs.length = 3 then
        match fps with
        | JField.arr ys =>
          if ys.length = 3 then Except.ok (xs, ys)
          else Except.error "Invalid focus_phrases format in OpenAI response"
        | _ => Except.error "Invalid focus_phrases format in OpenAI response"
      else Except.error "Invalid lines format in OpenAI response"
    | _ => Except.error "Invalid lines format in OpenAI response"

/- ---------- Speech recognition (server/services/speech-recognition.ts) ---------- -/

structure RecogResult where
  text : String
  confidence : ℚ
deriving Repr

/-- The hallucination blocklist of recognizeSpeech. -/
def commonHallucinations : List String :=
  ["ふぅ", "ん", "あ", "え", "う", "お", "うん",
   "おしまい", "ご視聴ありがとう", "ありがとうございました",
   "Thank you for watching", "Thanks for watching",
   "시청해주셔서 감사합니다", "감사합니다"]

/-- The character class of the /^[あいうえおんふぅ]+$/ filler regex. -/
def fillerChars : List Char := ['あ', 'い', 'う', 'え', 'お', 'ん', 'ふ', 'ぅ']

/-- The post-transcription rejection test of recognizeSpeech: empty text,
fewer than two characters, any blocklisted substring, or text made entirely
of filler kana. -/
def isHallucination (resultText : String) : Bool :=
  resultText = "" || decide (resultText.length < 2) ||
  commonHallucinations.any (fun h => strIncludes resultText h) ||
  (decide (1 ≤ resultText.length) && resultText.data.all (fun c => fillerChars.contains c))

/-- recognizeSpeech: the first argument is the base64-decoded audio buffer
(as its byte list), the second the Whisper transcription oracle (none when
the API call fails). Buffers under 1000 bytes are rejected before any
provider call; hallucinated transcriptions are rejected after it. The
confidence of a success is the hard-coded 0.9 (as the rational 9/10). -/
def recognizeSpeech (audio : List Nat) (whisper : Option String) :
    Except String RecogResult :=
  if audio.length < 1000 then Except.error "Audio too short or silent"
  else
    match whisper with
    | none => Except.error "Speech recognition failed"
    | some t =>
      let resultText := strTrim t
      if isHallucination resultText then
        Except.error "Speech recognition detected silence or noise"
      else Except.ok { text := resultText, confidence := 9 / 10 }

/- ---------- Client turn intake (client/src/pages/Auth.tsx) ---------- -/

/-- One dialogue turn as the client stores it. -/
structure Turn where
  speaker : String
  text : String
deriving DecidableEq, Repr

/-- The client session state that processUserResponse may change up to and
including the user-turn append. -/
structure ClientSession where
  dialogueHistory : List Turn
  progress : Nat
deriving DecidableEq, Repr

/-- The prefix of processUserResponse up to the user-turn append: blobs under
1000 bytes return before any server call; a failed or empty transcription
returns without appending; otherwise the trimmed user text is appended as a
user turn. The blob size is the raw recording size (before base64 decoding on
the server), so it is passed separately from the decoded buffer. -/
def userTurnIntake (blobSize : Nat) (recog : Except String RecogResult)
    (s : ClientSession) : ClientSession :=
  if blobSize < 1000 then s
  else
    match recog with
    | Except.error _ => s
    | Except.ok r =>
      let userText := strTrim r.text
      if userText = "" then s
      else { s with dialogueHistory := s.dialogueHistory ++ [Turn.mk "user" userText] }

/- ---------- Conversation history context ----------
   Two distinct embeddings, from the two code paths that package history for
   the chat provider. -/

/-- The `conversationHistory.slice(-6)` window of
generateConversationResponse (server/services/speech-recognition.ts). -/
def conversationContext (history : List Turn) : List Turn :=
  history.drop (history.length - 6)

/-- The joined history text that generateConversationResponse embeds in its
prompt, built from the windowed context only. -/
def generateConversationResponseHistoryText (history : List Turn) : String :=
  String.intercalate "\n"
    ((conversationContext history).map (fun t => t.speaker ++ ": " ++ t.text))

/-- One chat message as POST /api/conversation-response builds it. -/
structure Msg where
  role : String
  content : String
deriving DecidableEq, Repr

/-- The messages array built by POST /api/conversation-response: the system
prompt, then one message per history turn (every turn, unsliced), then the
current user input. -/
def conversationRouteMessages (userInput : String) (history : List Turn)
    (systemContent : String) : List Msg :=
  Msg.mk "system" systemContent ::
    history.map (fun t => Msg.mk (if t.speaker = "user" then "user" else "assistant") t.text) ++
    [Msg.mk "user" userInput]

/- ---------- Concrete fixtures used by witnesses and counterexamples ---------- -/

/-- A free-tier user sitting exactly at both the conversation and the image
limit. -/
def freeUserAtLimit : User :=
  { email := "a@example.com", isAdmin := false, subscriptionTier := some "free",
    conversationCount := some 30, imageGenerationCount := some 1,
    ttsUsageCount := some 0, dailyUsageCount := some 0,
    monthlyImageCount := some 0, lastUsageReset := some 0 }

/-- The designated administrative identity. -/
def adminUser : User :=
  { email := "mainstop3@gmail.com", isAdmin := false, subscriptionTier := some "free",
    conversationCount := some 7, imageGenerationCount := some 7,
    ttsUsageCount := some 7, dailyUsageCount := some 7,
    monthlyImageCount := some 7, lastUsageReset := some 0 }

/-- A user whose last reset is exactly 30 days before the probe time and whose
five counters are pairwise distinct nonzero values. -/
def staleUser : User :=
  { email := "u@example.com", isAdmin := false, subscriptionTier := some "free",
    conversationCount := some 5, imageGenerationCount := some 2,
    ttsUsageCount := some 3, dailyUsageCount := some 7,
    monthlyImageCount := some 4, lastUsageReset := some 0 }

/- ---------- Claim C1 ---------- -/

/-- Claim C1: for every user and metric, checkUsageLimit and
checkImageUsageLimit answer allowed=false exactly when the current counter
has reached the tier limit and allowed=true strictly below it; the admin
identity (email mainstop3@gmail.com or isAdmin) always gets allowed=true
with limit 999999; a missing user record fails closed. -/
theorem c1_quota_check :
    (∀ u : User, isAdminIdentity u = false →
        ((checkUsageLimit (some u)).canUse = false ↔
          (checkUsageLimit (some u)).limit ≤ (checkUsageLimit (some u)).currentUsage) ∧
        (checkUsageLimit (some u)).currentUsage = u.conversationCount.getD 0 ∧
        (checkUsageLimit (some u)).limit =
          conversationLimitForTier (u.subscriptionTier.getD "free")) ∧
    (∀ u : User, isAdminIdentity u = false →
        ((checkImageUsageLimit (some u)).canUse = false ↔
          (checkImageUsageLimit (some u)).limit ≤ (checkImageUsageLimit (some u)).currentUsage) ∧
        (checkImageUsageLimit (some u)).currentUsage = u.imageGenerationCount.getD 0 ∧
        (checkImageUsageLimit (some u)).limit =
          imageLimitForTier (u.subscriptionTier.getD "free")) ∧
    (∀ u : User, (u.email = "mainstop3@gmail.com" ∨ u.isAdmin = true) →
        checkUsageLimit (some u) = { canUse := true, currentUsage := 0, limit := 999999 } ∧
        checkImageUsageLimit (some u) = { canUse := true, currentUsage := 0, limit := 999999 }) ∧
    checkUsageLimit none = { canUse := false, currentUsage := 0, limit := 0 } ∧
    checkImageUsageLimit none = { canUse := false, currentUsage := 0, limit := 0 } := by
  refine ⟨?_, ?_, ?_, rfl, rfl⟩
  · intro u h
    simp only [checkUsageLimit, h, if_false, Bool.false_eq_true]
    refine ⟨?_, trivial, trivial⟩
    simp [decide_eq_false_iff_not, Nat.not_lt]
  · intro u h
    simp only [checkImageUsageLimit, h, if_false, Bool.false_eq_true]
    refine ⟨?_, trivial, trivial⟩
    simp [decide_eq_false_iff_not, Nat.not_lt]
  · intro u h
    have ha : isAdminIdentity u = true := by
      rcases h with h | h <;> simp [isAdminIdentity, h]
    constructor
    · simp [checkUsageLimit, ha]
    · simp [checkImageUsageLimit, ha]

/-- Claim C1 witness: the boundary user at counter = limit is denied and the
admin identity is allowed with the unbounded limit. -/
theorem c1_quota_check_witness :
    ((checkUsageLimit (some freeUserAtLimit)).canUse = false ↔
      (checkUsageLimit (some freeUserAtLimit)).limit ≤
        (checkUsageLimit (some freeUserAtLimit)).currentUsage) ∧
    checkUsageLimit (some adminUser) = { canUse := true, currentUsage := 0, limit := 999999 } :=
  ⟨(c1_quota_check.1 freeUserAtLimit (by decide)).1,
   (c1_quota_check.2.2.1 adminUser (Or.inl (by decide))).1⟩

/- ---------- Claim C2 ---------- -/

/-- Claim C2 counterexample: thirty days after the last reset the automatic
reset in POST /api/check-usage fires (dailyUsageCount is zeroed), yet the
three usage counters the claim names - conversation, image generation, TTS -
are all left at their old nonzero values, so the reset does not zero all
three counters. -/
theorem c2_reset_counterexample :
    30 ≤ daysSinceReset (30 * msPerDay) staleUser ∧
    (checkUsageRoute (30 * msPerDay) staleUser).2.dailyUsageCount = some 0 ∧
    (checkUsageRoute (30 * msPerDay) staleUser).2.conversationCount = some 5 ∧
    (checkUsageRoute (30 * msPerDay) staleUser).2.imageGenerationCount = some 2 ∧
    (checkUsageRoute (30 * msPerDay) staleUser).2.ttsUsageCount = some 3 := by
  decide

/-- Claim C2 amended: when at least 30 days have passed since the last reset,
the POST /api/check-usage reset zeroes only dailyUsageCount and stamps
lastResetAt = now, and it is applied before the quota comparison of that same
call (the reported currentUsage is 0 and the check passes); the three
counters conversation / image / TTS are zeroed only by the separate
storage.resetUserUsage operation. -/
theorem c2_reset_amended :
    (∀ (now : Int) (u : User), 30 ≤ daysSinceReset now u →
        (checkUsageRoute now u).2 =
          { u with dailyUsageCount := some 0, lastUsageReset := some now } ∧
        (checkUsageRoute now u).1.currentUsage = 0 ∧
        (checkUsageRoute now u).1.canUse = true) ∧
    (∀ (now : Int) (u : User),
        resetUserUsage now u =
          { u with conversationCount := some 0, imageGenerationCount := some 0,
                   ttsUsageCount := some 0, dailyUsageCount := some 0,
                   monthlyImageCount := some 0, lastUsageReset := some now }) := by
  constructor
  · intro now u h
    have hd : decide (30 ≤ daysSinceReset now u) = true := by simpa using h
    refine ⟨?_, ?_, ?_⟩
    · simp [checkUsageRoute, hd]
    · simp [checkUsageRoute, hd]
    · have hpos : 0 < (routeLimits u.subscriptionTier).1 := by
        unfold routeLimits
        split <;> decide
      simp [checkUsageRoute, hd, hpos]
  · intro now u
    rfl

/-- Claim C2 amended witness: the stale user at day 30 gets the daily-counter
reset applied before evaluation, and resetUserUsage zeroes all counters. -/
theorem c2_reset_amended_witness :
    (checkUsageRoute (30 * msPerDay) staleUser).1.currentUsage = 0 ∧
    resetUserUsage 99 staleUser =
      { staleUser with conversationCount := some 0, imageGenerationCount := some 0,
                       ttsUsageCount := some 0, dailyUsageCount := some 0,
                       monthlyImageCount := some 0, lastUsageReset := some 99 } :=
  ⟨(c2_reset_amended.1 (30 * msPerDay) staleUser (by decide)).2.1,
   c2_reset_amended.2 99 staleUser⟩

/- ---------- Claim C3 ---------- -/

/-- Claim C3: on every metered endpoint, a failing quota check yields
status 429 with the currentUsage and limit of the check in the body (plus
type image_limit_exceeded for image generation), the external provider is
not called, and the stored user state is unchanged. -/
theorem c3_quota_denied_429 :
    ∀ (userRec : Option User) (providerOk : Bool),
      ((checkImageUsageLimit userRec).canUse = false →
        generateImageRoute userRec providerOk =
          { status := 429, currentUsage := some (checkImageUsageLimit userRec).currentUsage,
            limit := some (checkImageUsageLimit userRec).limit,
            errType := some "image_limit_exceeded", providerCalled := false,
            finalUser := userRec }) ∧
      ((checkUsageLimit userRec).canUse = false →
        generateDialogueRoute userRec providerOk =
          { status := 429, currentUsage := some (checkUsageLimit userRec).currentUsage,
            limit := some (checkUsageLimit userRec).limit,
            errType := none, providerCalled := false, finalUser := userRec } ∧
        ttsRoute userRec providerOk =
          { status := 429, currentUsage := some (checkUsageLimit userRec).currentUsage,
            limit := some (checkUsageLimit userRec).limit,
            errType := none, providerCalled := false, finalUser := userRec } ∧
        conversationResponseRoute userRec providerOk =
          { status := 429, currentUsage := some (checkUsageLimit userRec).currentUsage,
            limit := some (checkUsageLimit userRec).limit,
            errType := none, providerCalled := false, finalUser := userRec }) := by
  intro userRec providerOk
  constructor
  · intro h
    simp [generateImageRoute, h]
  · intro h
    refine ⟨?_, ?_, ?_⟩
    · simp [generateDialogueRoute, h]
    · simp [ttsRoute, h]
    · simp [conversationResponseRoute, h]

/-- Claim C3 witness: the free user at both limits is denied with a 429
outcome, no provider call, and unchanged state on all four endpoints. -/
theorem c3_quota_denied_429_witness :
    generateImageRoute (some freeUserAtLimit) true =
      { status := 429, currentUsage := some 1, limit := some 1,
        errType := some "image_limit_exceeded", providerCalled := false,
        finalUser := some freeUserAtLimit } ∧
    ttsRoute (some freeUserAtLimit) true =
      { status := 429, currentUsage := some 30, limit := some 30,
        errType := none, providerCalled := false,
        finalUser := some freeUserAtLimit } := by
  have h := c3_quota_denied_429 (some freeUserAtLimit) true
  exact ⟨(h.1 (by decide)).trans (by decide), ((h.2 (by decide)).2.1).trans (by decide)⟩

/- ---------- Claim C4 ---------- -/

/-- A pro-tier user whose daily and conversation counters both read 700. -/
def proUser : User :=
  { email := "p@example.com", isAdmin := false, subscriptionTier := some "pro",
    conversationCount := some 700, imageGenerationCount := some 0,
    ttsUsageCount := some 0, dailyUsageCount := some 700,
    monthlyImageCount := some 0, lastUsageReset := some 0 }

/-- The admin identity with both counters far over the free limit. -/
def adminHeavyUser : User :=
  { email := "mainstop3@gmail.com", isAdmin := false, subscriptionTier := some "free",
    conversationCount := some 50, imageGenerationCount := some 0,
    ttsUsageCount := some 0, dailyUsageCount := some 50,
    monthlyImageCount := some 0, lastUsageReset := some 0 }

/-- A starter-tier user with equal daily and conversation counters. -/
def starterUser : User :=
  { email := "s@example.com", isAdmin := false, subscriptionTier := some "starter",
    conversationCount := some 100, imageGenerationCount := some 0,
    ttsUsageCount := some 0, dailyUsageCount := some 100,
    monthlyImageCount := some 0, lastUsageReset := some 0 }

/-- Claim C4 counterexample: with identical stored counters the two
conversation-quota decisions disagree - a pro user at 700 is denied by
POST /api/check-usage (limit 600 over dailyUsageCount) but allowed by
checkUsageLimit (limit 1000 over conversationCount); the admin identity
is denied by the route (which has no admin bypass) but allowed by
checkUsageLimit; and POST /api/increment-usage bumps dailyUsageCount
while storage.incrementUsage(conversation) bumps conversationCount. -/
theorem c4_refinement_counterexample :
    ((checkUsageRoute 0 proUser).1.canUse = false ∧
      (checkUsageLimit (some proUser)).canUse = true) ∧
    ((checkUsageRoute 0 adminHeavyUser).1.canUse = false ∧
      (checkUsageLimit (some adminHeavyUser)).canUse = true) ∧
    ((incrementUsageRoute proUser).2.dailyUsageCount = some 701 ∧
      (incrementUsageRoute proUser).2.conversationCount = some 700 ∧
      (incrementUsage proUser UsageType.conversation).conversationCount = some 701 ∧
      (incrementUsage proUser UsageType.conversation).dailyUsageCount = some 700) := by
  decide

/-- Claim C4 amended: the two decisions coincide only on a restricted domain -
a non-admin user, equal daily and conversation counters, a free or starter
tier (where the two limit tables agree), and no pending 30-day reset; and the
counter incremented by POST /api/increment-usage (dailyUsageCount) is not the
counter charged by the metered endpoints through storage.incrementUsage
(conversationCount). -/
theorem c4_refinement_amended :
    (∀ (now : Int) (u : User), isAdminIdentity u = false →
        u.dailyUsageCount = u.conversationCount →
        (u.subscriptionTier = some "free" ∨ u.subscriptionTier = some "starter") →
        daysSinceReset now u < 30 →
        (checkUsageRoute now u).1.canUse = (checkUsageLimit (some u)).canUse) ∧
    (∀ u : User,
        (incrementUsageRoute u).2.dailyUsageCount = some (u.dailyUsageCount.getD 0 + 1) ∧
        (incrementUsageRoute u).2.conversationCount = u.conversationCount ∧
        (incrementUsage u UsageType.conversation).conversationCount =
          some (u.conversationCount.getD 0 + 1) ∧
        (incrementUsage u UsageType.conversation).dailyUsageCount = u.dailyUsageCount) := by
  constructor
  · intro now u hadm hcnt htier hday
    have hd : decide (30 ≤ daysSinceReset now u) = false := by
      simp [decide_eq_false_iff_not]
      omega
    rcases htier with ht | ht <;>
      simp [checkUsageRoute, checkUsageLimit, routeLimits, conversationLimitForTier,
            hadm, hcnt, ht, hd]
  · intro u
    exact ⟨rfl, rfl, rfl, rfl⟩

/-- Claim C4 amended witness: the starter user inside the agreement domain
gets the same decision from both checks, and the two increment operations
touch the two different counters of that user. -/
theorem c4_refinement_amended_witness :
    (checkUsageRoute 0 starterUser).1.canUse = (checkUsageLimit (some starterUser)).canUse ∧
    (incrementUsageRoute starterUser).2.dailyUsageCount = some 101 ∧
    (incrementUsage starterUser UsageType.conversation).dailyUsageCount = some 100 :=
  ⟨c4_refinement_amended.1 0 starterUser (by decide) (by decide) (Or.inr (by decide)) (by decide),
   (c4_refinement_amended.2 starterUser).1.trans (by decide),
   (c4_refinement_amended.2 starterUser).2.2.2.trans (by decide)⟩

/- ---------- Claim C5 ---------- -/

/-- Claim C5: voice selection is a total function on (gender, style, role)
with the stated lookup order - a role found in the role table decides the
voice (whatever the style is), otherwise the gender-and-style tables with a
gender default decide - and the cheerful female voice differs with and
without the Friendly Barista role because the role table overrides it. -/
theorem c5_voice_selection :
    (∀ (style style2 gender role : String) (v : Voice),
        roleVoices gender role = some v →
        getOpenAIVoiceForCharacter style gender role = v ∧
        getOpenAIVoiceForCharacter style gender role =
          getOpenAIVoiceForCharacter style2 gender role) ∧
    (∀ (style gender role : String),
        roleVoices gender role = none →
        getOpenAIVoiceForCharacter style gender role =
          (if strToLower gender = "female" then femaleVoiceForStyle style
           else if strToLower gender = "male" then maleVoiceForStyle style
           else Voice.nova)) ∧
    getOpenAIVoiceForCharacter "cheerful" "female" "" = Voice.shimmer ∧
    getOpenAIVoiceForCharacter "cheerful" "female" "Friendly Barista" = Voice.alloy ∧
    getOpenAIVoiceForCharacter "cheerful" "female" "" ≠
      getOpenAIVoiceForCharacter "cheerful" "female" "Friendly Barista" := by
  have hroleOf : ∀ (style gender role : String) (v : Voice),
      roleVoices gender role = some v →
      getOpenAIVoiceForCharacter style gender role = v := by
    intro style gender role v h
    have hne : ¬ role = "" := by
      intro he
      subst he
      simp [roleVoices] at h
    simp [getOpenAIVoiceForCharacter, hne, h]
  refine ⟨?_, ?_, by decide, by decide, by decide⟩
  · intro style style2 gender role v h
    exact ⟨hroleOf style gender role v h, (hroleOf style gender role v h).trans
      (hroleOf style2 gender role v h).symm⟩
  · intro style gender role h
    by_cases hr : role = ""
    · simp [getOpenAIVoiceForCharacter, hr]
    · simp [getOpenAIVoiceForCharacter, hr, h]

/-- Claim C5 witness: the Friendly Barista role decides the voice for a
female speaker whatever the style is, and without a role the fallback
chain is used. -/
theorem c5_voice_selection_witness :
    getOpenAIVoiceForCharacter "cheerful" "female" "Friendly Barista" = Voice.alloy ∧
    getOpenAIVoiceForCharacter "cheerful" "female" "Friendly Barista" =
      getOpenAIVoiceForCharacter "strict" "female" "Friendly Barista" ∧
    getOpenAIVoiceForCharacter "calm" "male" "unknown role" =
      (if strToLower "male" = "female" then femaleVoiceForStyle "calm"
       else if strToLower "male" = "male" then maleVoiceForStyle "calm"
       else Voice.nova) :=
  ⟨(c5_voice_selection.1 "cheerful" "strict" "female" "Friendly Barista" Voice.alloy
      (by decide)).1,
   (c5_voice_selection.1 "cheerful" "strict" "female" "Friendly Barista" Voice.alloy
      (by decide)).2,
   c5_voice_selection.2.1 "calm" "male" "unknown role" (by decide)⟩

/- ---------- Claim C6 ---------- -/

/-- A seven-turn conversation history whose oldest turn is outside any
six-turn trailing window. -/
def sevenTurnHistory : List Turn :=
  [Turn.mk "character" "t1", Turn.mk "user" "t2", Turn.mk "character" "t3",
   Turn.mk "user" "t4", Turn.mk "character" "t5", Turn.mk "user" "t6",
   Turn.mk "character" "t7"]

/-- Claim C6 counterexample: on a seven-turn history the messages array built
by POST /api/conversation-response contains one entry per history turn - the
oldest turn t1 included - even though t1 is outside the six-turn window, so
the endpoint submits the full unbounded history rather than the last 6. -/
theorem c6_history_window_counterexample :
    sevenTurnHistory.length = 7 ∧
    (conversationRouteMessages "next" sevenTurnHistory "sys").length = 9 ∧
    Msg.mk "assistant" "t1" ∈ conversationRouteMessages "next" sevenTurnHistory "sys" ∧
    Turn.mk "character" "t1" ∉ conversationContext sevenTurnHistory ∧
    (conversationContext sevenTurnHistory).length = 6 := by
  decide

/-- Claim C6 amended: only the generateConversationResponse service bounds
the submitted context to a trailing window of the last 6 turns; the
POST /api/conversation-response route forwards every turn of the incoming
history to the provider (one chat message per turn, plus the system prompt
and the current user input). -/
theorem c6_history_window_amended :
    (∀ history : List Turn,
        (conversationContext history).length = min history.length 6 ∧
        (conversationContext history).IsSuffix history) ∧
    (∀ (userInput systemContent : String) (history : List Turn),
        (conversationRouteMessages userInput history systemContent).map Msg.content =
          systemContent :: history.map Turn.text ++ [userInput]) := by
  constructor
  · intro history
    constructor
    · simp [conversationContext]
      omega
    · exact List.drop_suffix _ _
  · intro userInput systemContent history
    simp [conversationRouteMessages]

/- ---------- Claim C7 ---------- -/

/-- Claim C7: every audio payload whose decoded size is under the 1000-byte
threshold (the 500-byte example included) is rejected by recognizeSpeech
before any transcription is produced, and the client turn intake driven by
that rejection appends no turn and leaves the session - history and progress -
unchanged. -/
theorem c7_small_audio_rejected :
    ∀ (audio : List Nat) (whisper : Option String) (blobSize : Nat) (s : ClientSession),
      audio.length < 1000 →
      recognizeSpeech audio whisper = Except.error "Audio too short or silent" ∧
      userTurnIntake blobSize (recognizeSpeech audio whisper) s = s := by
  intro audio whisper blobSize s h
  have he : recognizeSpeech audio whisper = Except.error "Audio too short or silent" := by
    simp [recognizeSpeech, h]
  refine ⟨he, ?_⟩
  rw [he]
  unfold userTurnIntake
  split <;> rfl

/-- Claim C7 witness: a 500-byte payload is below the threshold, is rejected,
and a session passed through the intake with it is returned unchanged. -/
theorem c7_small_audio_rejected_witness :
    (List.replicate 500 (0 : Nat)).length < 1000 ∧
    userTurnIntake 500 (recognizeSpeech (List.replicate 500 (0 : Nat)) (some "すし"))
        (ClientSession.mk [] 10) = ClientSession.mk [] 10 := by
  have hlen : (List.replicate 500 (0 : Nat)).length < 1000 := by
    rw [List.length_replicate]
    decide
  exact ⟨hlen,
    (c7_small_audio_rejected (List.replicate 500 (0 : Nat)) (some "すし") 500
      (ClientSession.mk [] 10) hlen).2⟩

/- ---------- Claim C8 ---------- -/

/-- Claim C8: a successful generateDialogue result has exactly 3 lines and
exactly 3 focus phrases; a provider response whose lines or focus_phrases
field is missing, not an array, or not of length 3 makes the operation fail,
as does a response with no content at all. -/
theorem c8_dialogue_shape :
    (∀ (content : Option (JField × JField)) (r : List String × List String),
        generateDialogue content = Except.ok r → r.1.length = 3 ∧ r.2.length = 3) ∧
    (∀ ls fps : JField, badDialogueField ls = true ∨ badDialogueField fps = true →
        ∃ e, generateDialogue (some (ls, fps)) = Except.error e) ∧
    (∃ e, generateDialogue none = Except.error e) := by
  refine ⟨?_, ?_, ⟨_, rfl⟩⟩
  · intro content r h
    rcases content with _ | ⟨ls, fps⟩
    · exact absurd h (by simp [generateDialogue])
    rcases ls with _ | _ | xs
    · exact absurd h (by simp [generateDialogue])
    · exact absurd h (by simp [generateDialogue])
    rcases fps with _ | _ | ys
    · by_cases hx : xs.length = 3 <;> exact absurd h (by simp [generateDialogue, hx])
    · by_cases hx : xs.length = 3 <;> exact absurd h (by simp [generateDialogue, hx])
    by_cases hx : xs.length = 3
    · by_cases hy : ys.length = 3
      · rw [show generateDialogue (some (JField.arr xs, JField.arr ys)) =
            Except.ok (xs, ys) from by simp [generateDialogue, hx, hy]] at h
        injection h with h2
        rw [← h2]
        exact ⟨hx, hy⟩
      · exact absurd h (by simp [generateDialogue, hx, hy])
    · exact absurd h (by simp [generateDialogue, hx])
  · intro ls fps h
    rcases ls with _ | _ | xs
    · exact ⟨"Invalid lines format in OpenAI response", rfl⟩
    · exact ⟨"Invalid lines format in OpenAI response", rfl⟩
    by_cases hx : xs.length = 3
    · have hbad : badDialogueField fps = true := by
        rcases h with h | h
        · exact absurd h (by simp [badDialogueField, hx])
        · exact h
      rcases fps with _ | _ | ys
      · exact ⟨"Invalid focus_phrases format in OpenAI response",
          by simp [generateDialogue, hx]⟩
      · exact ⟨"Invalid focus_phrases format in OpenAI response",
          by simp [generateDialogue, hx]⟩
      · have hy : ¬ ys.length = 3 := by simpa [badDialogueField] using hbad
        exact ⟨"Invalid focus_phrases format in OpenAI response",
          by simp [generateDialogue, hx, hy]⟩
    · exact ⟨"Invalid lines format in OpenAI response", by simp [generateDialogue, hx]⟩

/-- Claim C8 witness: a well-formed 3-and-3 response succeeds with lengths 3,
and a response missing its lines field fails. -/
theorem c8_dialogue_shape_witness :
    ((["a", "b", "c"], ["d", "e", "f"]) : List String × List String).1.length = 3 ∧
    (∃ e, generateDialogue (some (JField.missing, JField.arr ["d", "e", "f"])) =
      Except.error e) :=
  ⟨(c8_dialogue_shape.1
      (some (JField.arr ["a", "b", "c"], JField.arr ["d", "e", "f"]))
      (["a", "b", "c"], ["d", "e", "f"]) rfl).1,
   c8_dialogue_shape.2.1 JField.missing (JField.arr ["d", "e", "f"])
      (Or.inl (by decide))⟩

/- ---------- Claim C9 ---------- -/

/-- Claim C9: the guarded usage reset is idempotent within a window - once
the 30-day reset has fired in a POST /api/check-usage call, a second call
at any time within the following 30 days leaves the stored user (counters
and lastResetAt) exactly as the first call left it. -/
theorem c9_reset_idempotent :
    ∀ (t t2 : Int) (u : User),
      30 ≤ daysSinceReset t u → t ≤ t2 → t2 - t < 30 * msPerDay →
      (checkUsageRoute t2 (checkUsageRoute t u).2).2 = (checkUsageRoute t u).2 := by
  intro t t2 u h1 h2 h3
  have hd : decide (30 ≤ daysSinceReset t u) = true := by simpa using h1
  have hu1 : (checkUsageRoute t u).2 =
      { u with dailyUsageCount := some 0, lastUsageReset := some t } := by
    simp [checkUsageRoute, hd]
  rw [hu1]
  have hdays : daysSinceReset t2 { u with dailyUsageCount := some 0, lastUsageReset := some t } < 30 := by
    show Int.fdiv (t2 - t) msPerDay < 30
    rw [Int.fdiv_eq_ediv _ (by decide : (0 : Int) ≤ msPerDay)]
    show (t2 - t) / msPerDay < 30
    have hm : msPerDay = 86400000 := rfl
    rw [hm] at h3 ⊢
    omega
  have hd2 : decide (30 ≤ daysSinceReset t2 { u with dailyUsageCount := some 0, lastUsageReset := some t }) = false := by
    simp only [decide_eq_false_iff_not]
    omega
  simp [checkUsageRoute, hd2]

/-- Claim C9 witness: after the reset fires at day 30, a second call five
milliseconds later leaves the stored user untouched. -/
theorem c9_reset_idempotent_witness :
    (checkUsageRoute (30 * msPerDay + 5)
        (checkUsageRoute (30 * msPerDay) staleUser).2).2 =
      (checkUsageRoute (30 * msPerDay) staleUser).2 :=
  c9_reset_idempotent (30 * msPerDay) (30 * msPerDay + 5) staleUser
    (by decide) (by decide) (by decide)

/- ---------- Claim C10 ---------- -/

/-- Claim C10: whenever recognizeSpeech succeeds, the confidence it returns
is the constant 0.9 (the rational 9/10), independent of the audio content or
the transcription. -/
theorem c10_confidence_constant :
    ∀ (audio : List Nat) (whisper : Option String) (r : RecogResult),
      recognizeSpeech audio whisper = Except.ok r → r.confidence = 9 / 10 := by
  intro audio whisper r h
  unfold recognizeSpeech at h
  split at h
  · exact absurd h (by simp)
  · rcases whisper with _ | t
    · exact absurd h (by simp)
    · simp only at h
      split at h
      · exact absurd h (by simp)
      · rcases h with rfl | _
        rfl

/-- Claim C10 witness: a 1000-byte payload with a clean transcription
succeeds, and the confidence of the result is 9/10. -/
theorem c10_confidence_constant_witness :
    recognizeSpeech (List.replicate 1000 (0 : Nat)) (some "すし") =
      Except.ok (RecogResult.mk "すし" (9 / 10)) ∧
    (RecogResult.mk "すし" (9 / 10)).confidence = 9 / 10 := by
  have he : recognizeSpeech (List.replicate 1000 (0 : Nat)) (some "すし") =
      Except.ok (RecogResult.mk "すし" (9 / 10)) := by
    unfold recognizeSpeech
    rw [List.length_replicate]
    rfl
  exact ⟨he, c10_confidence_constant (List.replicate 1000 (0 : Nat)) (some "すし")
    (RecogResult.mk "すし" (9 / 10)) he⟩
